import Mathlib

/-!
Verification of the analytics-agent query pipeline.

This file gives a shallow embedding of the query-to-answer pipeline of the
repository (backend/agents/analytics_agent.py, backend/agents/analytics_utils.py,
backend/embeddings/generator.py) and proves properties about it.

Modelling conventions:
* Python floats are modelled as exact rationals (`ℚ`); numeric comparisons in
  the code are exact on the inputs used here.
* Python strings are modelled as Lean `String`s; string operations
  (`lower`, `strip`, `split`, slicing, `in`, `join`) are re-implemented on the
  underlying character lists with Python semantics (ASCII scope).
* The two external black boxes — the OpenAI chat completions used by
  `validate_query`, `_get_llm_insights` and the streaming response, and the
  TextBlob polarity/subjectivity model used by `SentimentAnalyzer` — are
  modelled as oracle parameters.  Everything downstream of the oracles is
  translated from the source.
* The FAISS index state of a logical collection is modelled by `IndexStatus`:
  `missing` (the `_index_exists` check fails), `corrupt` (the check succeeds
  but `EmbeddingGenerator.load_index` raises `FileNotFoundError` after
  discarding the index), and `ok rs` (the search returns the result list `rs`).
-/

/-! ## String utilities (Python semantics, character-list based) -/

/-- Python `str.lower()` (ASCII scope), character by character. -/
def lowerStr (s : String) : String := String.mk (s.data.map Char.toLower)

/-- Python substring test `pat in hay`. -/
def containsSub (hay pat : String) : Bool :=
  (List.range (hay.data.length + 1)).any (fun i => pat.data.isPrefixOf (hay.data.drop i))

/-- Bool test that `p` is a prefix of `s` (Python `s.startswith(p)`). -/
def strStarts (s p : String) : Bool := p.data.isPrefixOf s.data

/-- Python `sep.join(parts)`. -/
def joinWith (sep : String) : List String → String
  | [] => ""
  | [p] => p
  | p :: ps => p ++ sep ++ joinWith sep ps

/-- Python `"\n".join(parts)`. -/
def joinNL (parts : List String) : String := joinWith "\n" parts

/-- Python `str.strip()`. -/
def stripStr (s : String) : String :=
  String.mk (((s.data.dropWhile Char.isWhitespace).reverse.dropWhile Char.isWhitespace).reverse)

/-- Maximal runs of characters satisfying `keep`; the accumulator holds the
current run reversed.  Used for Python `str.split()` and `re.findall(r"\b\w+\b", s)`. -/
def tokensBy (keep : Char → Bool) : List Char → List Char → List String
  | [], acc => if acc.isEmpty then [] else [String.mk acc.reverse]
  | c :: cs, acc =>
    if keep c then tokensBy keep cs (c :: acc)
    else if acc.isEmpty then tokensBy keep cs []
    else String.mk acc.reverse :: tokensBy keep cs []

/-- Python `str.split()` (no argument: split on whitespace runs, drop empties). -/
def splitWS (s : String) : List String := tokensBy (fun c => !c.isWhitespace) s.data []

/-- A Python `\w` regex character (ASCII scope). -/
def wordChar (c : Char) : Bool := c.isAlphanum || c == '_'

/-- Python `re.findall(r"\b\w+\b", s)`: maximal runs of word characters. -/
def wordTokens (s : String) : List String := tokensBy wordChar s.data []

/-- Round half to even (the rounding used by Python float formatting),
on exact rationals. -/
def roundHalfEven (q : ℚ) : ℤ :=
  let f := q.floor
  let r2 : ℤ := 2 * (q.num - f * (q.den : ℤ))
  if r2 < (q.den : ℤ) then f
  else if (q.den : ℤ) < r2 then f + 1
  else if f % 2 = 0 then f else f + 1

/-- Pad a natural number below 1000 to three digits. -/
def pad3 (m : Nat) : String :=
  if m < 10 then "00" ++ toString m else if m < 100 then "0" ++ toString m else toString m

/-- Python `f"{q:.3f}"` on an exact rational. -/
def formatFixed3 (q : ℚ) : String :=
  let n := roundHalfEven (q * 1000)
  let sign := if n < 0 then "-" else ""
  let m := n.natAbs
  sign ++ toString (m / 1000) ++ "." ++ pad3 (m % 1000)

/-- Python `f"{q:.0f}"` on an exact rational. -/
def formatRound0 (q : ℚ) : String := toString (roundHalfEven q)

/-- Python `str.replace('_', ' ')`. -/
def underscoreToSpace (s : String) : String :=
  String.mk (s.data.map (fun c => if c = '_' then ' ' else c))

/-- First occurrences of each string, in order (`dict`/`Counter` key order). -/
def dedupStr : List String → List String → List String
  | [], _ => []
  | x :: xs, seen => if x ∈ seen then dedupStr xs seen else x :: dedupStr xs (x :: seen)

/-- Python `collections.Counter(l)` as an association list in key-insertion order. -/
def counterOf (l : List String) : List (String × Nat) :=
  (dedupStr l []).map (fun k => (k, l.count k))

/-- Stable insertion (descending by `key`) used to model Python's stable
`sort(..., reverse=True)` / `sorted(..., reverse=True)`.  The element is placed
before the first entry whose key is not larger, so equal keys keep their
original relative order. -/
def insertDescBy {α : Type} (key : α → ℚ) (x : α) : List α → List α
  | [] => [x]
  | y :: ys => if key x < key y then y :: insertDescBy key x ys else x :: y :: ys

/-- Stable sort, descending by `key` (Python stable sort with `reverse=True`). -/
def sortDescBy {α : Type} (key : α → ℚ) : List α → List α
  | [] => []
  | x :: xs => insertDescBy key x (sortDescBy key xs)

/-! ## Data model -/

/-- The metadata keys the agent reads from a retrieved document
(`metadata.get('comment_id', ...)`, `metadata.get('page', ...)`);
values are modelled in their rendered form. -/
structure Metadata where
  comment_id : Option String
  page : Option String
deriving DecidableEq, Repr

/-- One result of `EmbeddingGenerator.search_similar`: content, metadata and
the raw FAISS score (`similarity_score`). -/
structure SearchResult where
  content : String
  metadata : Metadata
  similarity_score : ℚ
deriving DecidableEq, Repr

/-- A retrieval result after `extract_context` tags it with `rank` and
`source_type` (the dict entries added in the per-collection loops). -/
structure EvidenceItem where
  content : String
  metadata : Metadata
  similarity_score : ℚ
  rank : Nat
  source_type : String
deriving DecidableEq, Repr

/-- The state of one FAISS collection, as observed by `extract_context`:
`missing` — `_index_exists` is false (no search, no exception);
`corrupt` — `_index_exists` is true but `load_index` raises
`FileNotFoundError` (incomplete or corrupt files, discarded);
`ok rs` — the search succeeds and returns `rs`. -/
inductive IndexStatus where
  | missing
  | corrupt
  | ok (results : List SearchResult)
deriving DecidableEq, Repr

/-- The `AgentState` TypedDict of analytics_agent.py. -/
structure AgentState where
  query : String
  charts : Option (List String)
  comments : Option (List String)
  is_analytical : Bool
  context : String
  context_sources : List EvidenceItem
  response : String
  insights : List String
  requires_clarification : Bool
  suggested_questions : List String
deriving DecidableEq, Repr

/-- The pipeline stages (graph nodes) that one run can execute. -/
inductive Stage where
  | validate
  | extract
  | analyze
  | respond
  | streamRespond
  | redirect
deriving DecidableEq, Repr

/-- The external black boxes of one run:
`classifier` is the text of the classification completion in `validate_query`;
`streamText` is the concatenation of the streamed response chunks;
`analysisInsights` abstracts the insight list computed by `analyze_data`
(which calls TextBlob and `_get_llm_insights`); `analyze_data` writes only the
`insights` key of the state (analytics_agent.py lines 223-295);
`bundleInsights` abstracts `InsightGenerator.generate_insights` as called on
the streaming path (line 604).  The genuine sentiment-threshold logic of
`InsightGenerator._analyze_comment_sentiment` is embedded separately below. -/
structure Oracles where
  classifier : String
  streamText : String
  analysisInsights : AgentState → List String
  bundleInsights : List EvidenceItem → List String

/-! ## analytics_agent.py: constants -/

/-- `self.max_context_sources = 5`. -/
def max_context_sources : Nat := 5

/-- The exact sentinel string of `extract_context` (line 195). -/
def sentinel : String := "No indexed data found. Please ensure data is processed and indexed first."

/-- The fixed response of `redirect_to_analytical`. -/
def redirect_response : String :=
  "I'm designed to help with social media analytics. Please ask questions about metrics, trends, or data insights."

/-- The three fixed suggested questions of `redirect_to_analytical`. -/
def redirect_questions : List String :=
  [ "What's the engagement rate for our latest campaign?"
  , "How has our follower growth changed this month?"
  , "Which content types perform best?" ]

/-- The three fixed "please provide data" prompts of
`_generate_follow_up_questions` (empty-context branch). -/
def no_data_questions : List String :=
  [ "Would you like me to analyze your social media data? Please upload PDFs or paste comments."
  , "Can you provide specific metrics or comments you'd like me to analyze?"
  , "What type of social media insights are you looking for?" ]

/-- The chart-specific question bucket. -/
def chart_questions : List String :=
  [ "Would you like to see the trend analysis over different time periods?"
  , "Can I break down these metrics by specific categories?"
  , "What specific metric would you like to explore in more detail?" ]

/-- The comment-specific question bucket. -/
def comment_questions : List String :=
  [ "Would you like a detailed sentiment analysis of the user comments?"
  , "Should I identify the main themes and topics in user feedback?"
  , "Can I analyze the reasons behind negative comments?" ]

/-- The insights-present question bucket. -/
def insight_questions : List String :=
  [ "Would you like me to provide actionable recommendations based on these insights?"
  , "Can I compare these metrics with industry benchmarks?"
  , "Should I analyze the correlation between different metrics?" ]

/-- The generic fallback question bucket. -/
def generic_questions : List String :=
  [ "What specific aspect of the data would you like to explore further?"
  , "Would you like to see a different perspective on this data?"
  , "Can I help you identify opportunities for improvement?" ]

/-! ## analytics_agent.py: extract_context -/

/-- The deduplication key of `extract_context` (lines 162-164):
`f"{metadata.get('comment_id', 'unknown')}:{content.strip()[:50]}"`. -/
def dedupKey (e : EvidenceItem) : String :=
  e.metadata.comment_id.getD "unknown" ++ ":" ++ String.mk ((stripStr e.content).data.take 50)

/-- The item with its (reassigned) rank forgotten, for comparing bundle items
with the retrieval results they came from. -/
def eraseRank (e : EvidenceItem) : EvidenceItem := { e with rank := 0 }

/-- The first-seen filter of the dedup loop (lines 161-168): an item is kept
iff its key is not in the `seen_content` set, which then receives the key. -/
def dedupe : List EvidenceItem → List String → List EvidenceItem
  | [], _ => []
  | x :: xs, seen =>
    if dedupKey x ∈ seen then dedupe xs seen
    else x :: dedupe xs (dedupKey x :: seen)

/-- Rank reassignment of the rebuild loop (line 176): `source["rank"] = idx + 1`
over the final sorted, truncated sequence. -/
def rerank (i : Nat) : List EvidenceItem → List EvidenceItem
  | [] => []
  | x :: xs => { x with rank := i + 1 } :: rerank (i + 1) xs

/-- The merge stage of `extract_context` (lines 156-172): dedup first-seen,
stable sort by `similarity_score` descending, truncate to
`max_context_sources`, reassign ranks 1.. . -/
def mergeSources (l : List EvidenceItem) : List EvidenceItem :=
  rerank 0 ((sortDescBy (fun e => e.similarity_score) (dedupe l [])).take max_context_sources)

/-- Tagging loop of the gather phase (lines 115-118 / 140-143):
1-based rank local to the collection plus the `source_type` tag. -/
def tagFrom (i : Nat) (ty : String) : List SearchResult → List EvidenceItem
  | [] => []
  | r :: rs => ⟨r.content, r.metadata, r.similarity_score, i + 1, ty⟩ :: tagFrom (i + 1) ty rs

/-- Items contributed by the charts collection. -/
def chartGatherItems : IndexStatus → List EvidenceItem
  | .ok rs => tagFrom 0 "chart" rs
  | _ => []

/-- Items contributed by the comments collection. -/
def commentGatherItems : IndexStatus → List EvidenceItem
  | .ok rs => tagFrom 0 "comment" rs
  | _ => []

/-- The note emitted when the charts index raises `FileNotFoundError`
and raw charts were provided (lines 126-128). -/
def chartNote (n : Nat) : String :=
  "Note: Charts index not found. " ++ toString n ++ " charts provided but not indexed."

/-- The note emitted when the comments index raises `FileNotFoundError`
and raw comments were provided (lines 151-153). -/
def commentNote (n : Nat) : String :=
  "Note: Comments index not found. " ++ toString n ++ " comments provided but not indexed."

/-- Note parts from the charts collection: only the corrupt case raises
`FileNotFoundError`, and the note is guarded by the truthiness of
`state.get("charts")` (a non-None, non-empty list). -/
def chartGatherNotes (ci : IndexStatus) (st : AgentState) : List String :=
  match ci with
  | .corrupt =>
    match st.charts with
    | some cs => if cs.isEmpty then [] else [chartNote cs.length]
    | none => []
  | _ => []

/-- Note parts from the comments collection (same shape as the charts case). -/
def commentGatherNotes (cc : IndexStatus) (st : AgentState) : List String :=
  match cc with
  | .corrupt =>
    match st.comments with
    | some cs => if cs.isEmpty then [] else [commentNote cs.length]
    | none => []
  | _ => []

/-- The concatenated retrieval results, charts before comments
(the order `context_sources` accumulates them). -/
def gatherSources (ci cc : IndexStatus) : List EvidenceItem :=
  chartGatherItems ci ++ commentGatherItems cc

/-- The `"Found N unique context sources for query: 'Q'\n"` summary line
inserted at position 0 of the rebuilt parts (line 193). -/
def summaryLine (query : String) (n : Nat) : String :=
  "Found " ++ toString n ++ " unique context sources for query: '" ++ query ++ "'\n"

/-- The rendered block of one bundle item in the rebuild loop (lines 175-189):
comment format for `source_type == "comment"`, chart format otherwise. -/
def sourcePart (i : Nat) (e : EvidenceItem) : String :=
  if e.source_type == "comment" then
    "[Comment Context " ++ toString (i + 1) ++ "] (Score: " ++ formatFixed3 e.similarity_score
      ++ ")\nComment ID: " ++ e.metadata.comment_id.getD "N/A" ++ "\nContent: " ++ e.content ++ "\n"
  else
    "[Chart Context " ++ toString (i + 1) ++ "] (Score: " ++ formatFixed3 e.similarity_score
      ++ ")\nPage: " ++ e.metadata.page.getD "N/A" ++ "\nContent: " ++ e.content ++ "\n"

/-- The rebuilt `unique_parts` list. -/
def partsFrom (i : Nat) : List EvidenceItem → List String
  | [] => []
  | e :: es => sourcePart i e :: partsFrom (i + 1) es

/-- `AnalyticsAgent.extract_context` (lines 100-199).  The per-result text
blocks built in the gather loops (lines 121-125, 146-150) never reach the
final context: when any source was gathered the parts list is replaced by the
rebuilt `unique_parts` (line 192), and when none was gathered no such block
exists — so only the notes and the rebuilt parts are modelled.  When no source
was gathered the sentinel is appended to the surviving note parts (line 195). -/
def extract_context (ci cc : IndexStatus) (st : AgentState) : AgentState :=
  let gathered := gatherSources ci cc
  let notes := chartGatherNotes ci st ++ commentGatherNotes cc st
  if gathered.isEmpty then
    { st with context := joinNL (notes ++ [sentinel]), context_sources := [] }
  else
    let u := mergeSources gathered
    { st with context := joinNL (summaryLine st.query u.length :: partsFrom 0 u)
            , context_sources := u }

/-! ## analytics_agent.py: the other pipeline stages -/

/-- `AnalyticsAgent.validate_query` (lines 86-98): the flag is
`"analytical" in response.content.lower()`. -/
def validate_query (classifierText : String) (st : AgentState) : AgentState :=
  { st with is_analytical := containsSub (lowerStr classifierText) "analytical" }

/-- `AnalyticsAgent.analyze_data` (lines 223-295): reads the state and writes
only the `insights` key; the computed list depends on TextBlob and on an LLM
call (`_get_llm_insights`) and is therefore supplied by the oracle. -/
def analyze_data (o : Oracles) (st : AgentState) : AgentState :=
  { st with insights := o.analysisInsights st }

/-- `AnalyticsAgent._generate_follow_up_questions` (lines 369-418). -/
def generate_follow_up_questions (st : AgentState) : List String :=
  if st.context_sources.isEmpty then no_data_questions.take 3
  else
    let has_charts := st.context_sources.any (fun s => s.source_type == "chart")
    let has_comments := st.context_sources.any (fun s => s.source_type == "comment")
    let qs := (if has_charts then chart_questions else [])
      ++ (if has_comments then comment_questions else [])
      ++ (if st.insights.isEmpty then [] else insight_questions)
    let qs' := if qs.length < 3 then qs ++ generic_questions else qs
    qs'.take 3

/-- `AnalyticsAgent.generate_response` (lines 352-367). -/
def generate_response (st : AgentState) : AgentState :=
  let resp :=
    if st.insights.isEmpty then
      "I couldn't find specific insights for your query about '" ++ st.query
        ++ "'. Please ensure the data has been properly indexed."
    else
      "Based on your query about '" ++ st.query ++ "', here are the key insights:\n\n"
        ++ joinNL (st.insights.map (fun i => "• " ++ i))
  let st1 := { st with response := resp }
  let st2 := { st1 with suggested_questions := generate_follow_up_questions st1 }
  { st2 with requires_clarification := st2.context_sources.length == 0 }

/-- `AnalyticsAgent.redirect_to_analytical` (lines 420-429). -/
def redirect_to_analytical (st : AgentState) : AgentState :=
  { st with response := redirect_response
          , requires_clarification := true
          , suggested_questions := redirect_questions }

/-- The initial state built by `run` / `arun_with_streaming`
(lines 494-505 / 543-554). -/
def initial_state (query : String) (charts comments : Option (List String)) : AgentState :=
  { query := query, charts := charts, comments := comments, is_analytical := false
  , context := "", context_sources := [], response := "", insights := []
  , requires_clarification := false, suggested_questions := [] }

/-- `AnalyticsAgent._generate_streaming_response` (lines 574-615): the
response text is the drained stream; insights are recomputed unless the
context equals the sentinel; `requires_clarification` is
`len(context_sources) == 0 or "no indexed data" in context.lower()`;
follow-up questions are generated last. -/
def generate_streaming_response (o : Oracles) (st : AgentState) : AgentState :=
  let st1 := { st with response := o.streamText }
  let st2 :=
    if st1.context ≠ sentinel then
      if st1.context_sources.isEmpty then analyze_data o st1
      else { st1 with insights := o.bundleInsights st1.context_sources }
    else st1
  let st3 := { st2 with requires_clarification :=
    (st2.context_sources.length == 0) || containsSub (lowerStr st2.context) "no indexed data" }
  { st3 with suggested_questions := generate_follow_up_questions st3 }

/-- The compiled graph run by `AnalyticsAgent.run` (lines 55-84, 488-517):
validate, then either extract → analyze → respond, or redirect.  The second
component records which graph nodes executed. -/
def run_sync (o : Oracles) (ci cc : IndexStatus) (query : String)
    (charts comments : Option (List String)) : AgentState × List Stage :=
  let st1 := validate_query o.classifier (initial_state query charts comments)
  if st1.is_analytical then
    (generate_response (analyze_data o (extract_context ci cc st1)),
      [Stage.validate, Stage.extract, Stage.analyze, Stage.respond])
  else
    (redirect_to_analytical st1, [Stage.validate, Stage.redirect])

/-- `AnalyticsAgent.arun_with_streaming` (lines 519-572): validate, then either
extract → streaming response, or redirect. -/
def run_streaming (o : Oracles) (ci cc : IndexStatus) (query : String)
    (charts comments : Option (List String)) : AgentState × List Stage :=
  let st1 := validate_query o.classifier (initial_state query charts comments)
  if st1.is_analytical then
    (generate_streaming_response o (extract_context ci cc st1),
      [Stage.validate, Stage.extract, Stage.streamRespond])
  else
    (redirect_to_analytical st1, [Stage.validate, Stage.redirect])

/-! ## analytics_utils.py: SentimentAnalyzer -/

/-- The fixed positive lexicon of `SentimentAnalyzer.__init__`. -/
def positive_words_lexicon : List String :=
  [ "excellent", "amazing", "love", "great", "wonderful", "fantastic"
  , "awesome", "perfect", "best", "outstanding", "brilliant", "superb" ]

/-- The fixed negative lexicon of `SentimentAnalyzer.__init__`. -/
def negative_words_lexicon : List String :=
  [ "terrible", "awful", "hate", "bad", "horrible", "worst", "poor"
  , "disappointing", "useless", "waste", "annoying", "frustrating" ]

/-- The result dict of `SentimentAnalyzer.analyze_sentiment`. -/
structure SentimentResult where
  polarity : ℚ
  subjectivity : ℚ
  sentiment : String
  positive_words : Nat
  negative_words : Nat
  confidence : ℚ
deriving DecidableEq, Repr

/-- `SentimentAnalyzer.analyze_sentiment` (analytics_utils.py lines 133-166).
`pol` and `subj` are the TextBlob polarity/subjectivity oracles (TextBlob is
deterministic per text); everything else follows the source: lexicon hit
counts over whitespace-split lowercased words, ±0.1 base thresholds, and the
very_positive / very_negative overrides (≥2 lexicon hits or |polarity|>0.5). -/
def analyze_sentiment (pol subj : String → ℚ) (text : String) : SentimentResult :=
  let polarity := pol text
  let subjectivity := subj text
  let words := splitWS (lowerStr text)
  let pc := (words.filter (fun w => positive_words_lexicon.contains w)).length
  let nc := (words.filter (fun w => negative_words_lexicon.contains w)).length
  let base :=
    if polarity > 1/10 then "positive"
    else if polarity < -(1/10) then "negative"
    else "neutral"
  let label :=
    if pc ≥ 2 ∨ polarity > 1/2 then "very_positive"
    else if nc ≥ 2 ∨ polarity < -(1/2) then "very_negative"
    else base
  { polarity := polarity, subjectivity := subjectivity, sentiment := label
  , positive_words := pc, negative_words := nc
  , confidence := |polarity| * (1 - subjectivity / 2) }

/-- `SentimentAnalyzer._get_overall_sentiment` (lines 186-193). -/
def get_overall_sentiment (avg : ℚ) : String :=
  if avg > 3/10 then "predominantly_positive"
  else if avg < -(3/10) then "predominantly_negative"
  else "mixed"

/-- The aggregate dict of `SentimentAnalyzer.analyze_batch`.  The source field
`positive_ratio` is named `positive_share` here. -/
structure BatchSentiment where
  individual_results : List SentimentResult
  average_polarity : ℚ
  sentiment_distribution : List (String × Nat)
  overall_sentiment : String
  positive_share : ℚ
deriving DecidableEq, Repr

/-- `SentimentAnalyzer.analyze_batch` (lines 168-184).  `np.mean` of an empty
list is NaN in the source; it is modelled as 0 and only ever used on non-empty
batches (the callers guard on non-emptiness). -/
def analyze_batch (pol subj : String → ℚ) (texts : List String) : BatchSentiment :=
  let results := texts.map (analyze_sentiment pol subj)
  let avg : ℚ := if results.isEmpty then 0
    else (results.map (fun r => r.polarity)).sum / results.length
  let dist := counterOf (results.map (fun r => r.sentiment))
  { individual_results := results
  , average_polarity := avg
  , sentiment_distribution := dist
  , overall_sentiment := get_overall_sentiment avg
  , positive_share := if results.isEmpty then 0
      else ((dist.lookup "positive").getD 0 : ℚ) / results.length }

/-! ## analytics_utils.py: TrendDetector -/

/-- The fixed stop-word set of `TrendDetector.identify_key_topics`. -/
def stop_words : List String :=
  [ "the", "a", "an", "and", "or", "but", "in", "on", "at", "to", "for"
  , "of", "with", "by", "is", "are", "was", "were" ]

/-- One entry of the topics list. -/
structure Topic where
  topic : String
  frequency : Nat
  percentage : ℚ
deriving DecidableEq, Repr

/-- `TrendDetector.identify_key_topics` (lines 219-244): join with spaces,
lowercase, `\b\w+\b` tokens, drop stop words and tokens of length ≤ 3, count
frequencies (`Counter`, key-insertion order), stable-sort by count descending
(`most_common`), take 10. -/
def identify_key_topics (texts : List String) : List Topic :=
  if texts.isEmpty then []
  else
    let all_text := lowerStr (joinWith " " texts)
    let words := wordTokens all_text
    let filtered := words.filter (fun w => !(stop_words.contains w) && decide (3 < w.length))
    let freq := counterOf filtered
    let top := (sortDescBy (fun p => (p.2 : ℚ)) freq).take 10
    top.map (fun p =>
      { topic := p.1, frequency := p.2
      , percentage := if filtered.isEmpty then 0
          else ((p.2 : ℚ) / filtered.length) * 100 })

/-- One entry of the anomalies list of `TrendDetector.detect_anomalies`.
The source stores the signed z-score; since the z-score compares only through
its absolute value (`abs(z) > 2`, `abs(z) > 3`), it is represented here by its
square `z_sq` so the whole computation stays in ℚ:
`abs(z) > c ↔ z_sq > c²` whenever the standard deviation is positive, and the
source sets `z = 0` when the standard deviation is 0. -/
structure Anomaly where
  index : Nat
  value : ℚ
  z_sq : ℚ
  severity : String
deriving DecidableEq, Repr

/-- The population variance `np.std(metrics)²` (np.std uses ddof=0). -/
def popVar (metrics : List ℚ) : ℚ :=
  let n : ℚ := metrics.length
  let mean := metrics.sum / n
  (metrics.map (fun v => (v - mean) ^ 2)).sum / n

/-- `TrendDetector.detect_anomalies` (lines 246-266): skip series shorter
than 3; flag indices with `abs(z) > 2`, severity `"high"` when `abs(z) > 3`
else `"medium"`; a zero standard deviation forces `z = 0`. -/
def detect_anomalies (metrics : List ℚ) : List Anomaly :=
  if metrics.length < 3 then []
  else
    let n : ℚ := metrics.length
    let mean := metrics.sum / n
    let varp := popVar metrics
    (metrics.enum).filterMap (fun p =>
      let zsq : ℚ := if varp > 0 then (p.2 - mean) ^ 2 / varp else 0
      if zsq > 4 then
        some { index := p.1, value := p.2, z_sq := zsq
             , severity := if zsq > 9 then "high" else "medium" }
      else none)

/-! ## analytics_utils.py: InsightGenerator._analyze_comment_sentiment -/

/-- `InsightGenerator._analyze_comment_sentiment` (lines 339-364): the overall
sentiment statement, then the strong-positive (share > 0.7) or
significant-negative (share < 0.3) statement, then the top-3-topics statement. -/
def analyze_comment_sentiment (pol subj : String → ℚ)
    (comment_sources : List EvidenceItem) : List String :=
  let comments := comment_sources.map (fun s => s.content)
  if comments.isEmpty then []
  else
    let sr := analyze_batch pol subj comments
    let ins1 := "Overall user sentiment is " ++ underscoreToSpace sr.overall_sentiment
    let share := sr.positive_share
    let mid :=
      if share > 7/10 then
        ["Strong positive feedback: " ++ formatRound0 (share * 100) ++ "% of comments are positive"]
      else if share < 3/10 then
        ["Significant negative feedback: " ++ formatRound0 ((1 - share) * 100)
          ++ "% of comments express concerns"]
      else []
    let topics := identify_key_topics comments
    let tIns :=
      if topics.isEmpty then []
      else ["Key discussion topics: " ++ joinWith ", " ((topics.take 3).map (fun t => t.topic))]
    (ins1 :: mid) ++ tIns

/-! ## Helper lemmas: strings -/

theorem String.data_append_eq (a b : String) : (a ++ b).data = a.data ++ b.data := by
  cases a; cases b; rfl

theorem isPrefixOf_append_left (l₁ l₂ t : List Char) (h : l₁.isPrefixOf l₂ = true) :
    l₁.isPrefixOf (l₂ ++ t) = true := by
  induction l₁ generalizing l₂ with
  | nil => cases h' : l₂ ++ t <;> rfl
  | cons a as ih =>
    cases l₂ with
    | nil => simp [List.isPrefixOf] at h
    | cons b bs =>
      simp only [List.isPrefixOf, Bool.and_eq_true] at h
      simp only [List.cons_append, List.isPrefixOf, Bool.and_eq_true]
      exact ⟨h.1, ih bs h.2⟩

/-- `containsSub` decides list-infix of the character data
(the semantics of Python's `in` on strings). -/
theorem containsSub_iff (hay pat : String) :
    containsSub hay pat = true ↔ pat.data <:+: hay.data := by
  unfold containsSub
  rw [List.any_eq_true]
  constructor
  · rintro ⟨i, -, hpre⟩
    rw [List.isPrefixOf_iff_prefix] at hpre
    obtain ⟨t, ht⟩ := hpre
    exact ⟨hay.data.take i, t, by rw [List.append_assoc, ht, List.take_append_drop]⟩
  · rintro ⟨s, t, hst⟩
    refine ⟨s.length, ?_, ?_⟩
    · rw [List.mem_range]
      have : s.length ≤ hay.data.length := by
        rw [← hst]; simp [List.length_append]
      omega
    · rw [List.isPrefixOf_iff_prefix, ← hst, List.append_assoc, List.drop_left]
      exact List.prefix_append pat.data t

theorem joinNL_single (s : String) : joinNL [s] = s := rfl

/-! ## Helper lemmas: stable descending sort -/

theorem insertDescBy_perm {α : Type} (key : α → ℚ) (x : α) (l : List α) :
    (insertDescBy key x l).Perm (x :: l) := by
  induction l with
  | nil => exact List.Perm.refl _
  | cons y ys ih =>
    by_cases h : key x < key y
    · simp only [insertDescBy, if_pos h]
      exact (ih.cons y).trans (List.Perm.swap x y ys)
    · simp only [insertDescBy, if_neg h]
      exact List.Perm.refl _

theorem sortDescBy_perm {α : Type} (key : α → ℚ) (l : List α) :
    (sortDescBy key l).Perm l := by
  induction l with
  | nil => exact List.Perm.refl _
  | cons x xs ih =>
    exact (insertDescBy_perm key x (sortDescBy key xs)).trans (ih.cons x)

theorem insertDescBy_pairwise {α : Type} (key : α → ℚ) (x : α) {l : List α}
    (h : List.Pairwise (fun a b => key b ≤ key a) l) :
    List.Pairwise (fun a b => key b ≤ key a) (insertDescBy key x l) := by
  induction l with
  | nil => simp [insertDescBy]
  | cons y ys ih =>
    rw [List.pairwise_cons] at h
    obtain ⟨hy, hys⟩ := h
    by_cases hxy : key x < key y
    · simp only [insertDescBy, if_pos hxy]
      refine List.Pairwise.cons ?_ (ih hys)
      intro z hz
      rcases List.mem_cons.mp ((insertDescBy_perm key x ys).mem_iff.mp hz) with hz1 | hz1
      · exact hz1 ▸ le_of_lt hxy
      · exact hy z hz1
    · simp only [insertDescBy, if_neg hxy]
      refine List.Pairwise.cons ?_ (List.Pairwise.cons hy hys)
      intro z hz
      rcases List.mem_cons.mp hz with hz' | hz'
      · exact hz' ▸ le_of_not_lt hxy
      · exact le_trans (hy z hz') (le_of_not_lt hxy)

theorem sortDescBy_pairwise {α : Type} (key : α → ℚ) (l : List α) :
    List.Pairwise (fun a b => key b ≤ key a) (sortDescBy key l) := by
  induction l with
  | nil => simp [sortDescBy]
  | cons x xs ih => exact insertDescBy_pairwise key x ih

/-! ## Helper lemmas: deduplication -/

theorem dedupKey_set_rank (e : EvidenceItem) (n : Nat) :
    dedupKey { e with rank := n } = dedupKey e := rfl

theorem eraseRank_set_rank (e : EvidenceItem) (n : Nat) :
    eraseRank { e with rank := n } = eraseRank e := rfl

theorem dedupe_subset {l : List EvidenceItem} {seen : List String} {e : EvidenceItem}
    (h : e ∈ dedupe l seen) : e ∈ l := by
  induction l generalizing seen with
  | nil => simp [dedupe] at h
  | cons x xs ih =>
    by_cases hk : dedupKey x ∈ seen
    · simp only [dedupe, if_pos hk] at h
      exact List.mem_cons_of_mem x (ih h)
    · simp only [dedupe, if_neg hk] at h
      rcases List.mem_cons.mp h with h1 | h1
      · exact h1 ▸ List.mem_cons_self x xs
      · exact List.mem_cons_of_mem x (ih h1)

theorem dedupe_key_not_seen {l : List EvidenceItem} {seen : List String} {e : EvidenceItem}
    (h : e ∈ dedupe l seen) : dedupKey e ∉ seen := by
  induction l generalizing seen with
  | nil => simp [dedupe] at h
  | cons x xs ih =>
    by_cases hk : dedupKey x ∈ seen
    · simp only [dedupe, if_pos hk] at h
      exact ih h
    · simp only [dedupe, if_neg hk] at h
      rcases List.mem_cons.mp h with h1 | h1
      · exact h1 ▸ hk
      · intro hc
        exact ih h1 (List.mem_cons_of_mem _ hc)

/-- Every item the dedup loop keeps is the first item of the input bearing
its key. -/
theorem dedupe_find {l : List EvidenceItem} {seen : List String} {e : EvidenceItem}
    (h : e ∈ dedupe l seen) :
    l.find? (fun x => dedupKey x == dedupKey e) = some e := by
  induction l generalizing seen with
  | nil => simp [dedupe] at h
  | cons x xs ih =>
    by_cases hk : dedupKey x ∈ seen
    · simp only [dedupe, if_pos hk] at h
      have hne : dedupKey x ≠ dedupKey e := fun hc => (dedupe_key_not_seen h) (hc ▸ hk)
      rw [List.find?_cons]
      simp only [beq_eq_false_iff_ne.mpr hne]
      exact ih h
    · simp only [dedupe, if_neg hk] at h
      rcases List.mem_cons.mp h with h1 | h1
      · subst h1
        rw [List.find?_cons]
        simp
      · have hne : dedupKey x ≠ dedupKey e := by
          intro hc
          exact (dedupe_key_not_seen h1) (hc ▸ List.mem_cons_self _ _)
        rw [List.find?_cons]
        simp only [beq_eq_false_iff_ne.mpr hne]
        exact ih h1

theorem dedupe_keys_nodup (l : List EvidenceItem) (seen : List String) :
    ((dedupe l seen).map dedupKey).Nodup := by
  induction l generalizing seen with
  | nil => simp [dedupe]
  | cons x xs ih =>
    by_cases hk : dedupKey x ∈ seen
    · simp only [dedupe, if_pos hk]
      exact ih seen
    · simp only [dedupe, if_neg hk, List.map_cons, List.nodup_cons]
      refine ⟨?_, ih _⟩
      intro hc
      obtain ⟨e, he, hke⟩ := List.mem_map.mp hc
      exact dedupe_key_not_seen he (hke ▸ List.mem_cons_self _ _)

/-- Every input key that is not yet seen survives deduplication. -/
theorem dedupe_covers {l : List EvidenceItem} {seen : List String} {x : EvidenceItem}
    (hx : x ∈ l) (hk : dedupKey x ∉ seen) :
    ∃ e ∈ dedupe l seen, dedupKey e = dedupKey x := by
  induction l generalizing seen with
  | nil => simp at hx
  | cons y ys ih =>
    by_cases hky : dedupKey y ∈ seen
    · simp only [dedupe, if_pos hky]
      rcases List.mem_cons.mp hx with h1 | h1
      · exact absurd (h1 ▸ hk) (fun hc => hc hky)
      · exact ih h1 hk
    · simp only [dedupe, if_neg hky]
      rcases List.mem_cons.mp hx with h1 | h1
      · exact ⟨y, List.mem_cons_self _ _, by rw [h1]⟩
      · by_cases heq : dedupKey x = dedupKey y
        · exact ⟨y, List.mem_cons_self _ _, heq.symm⟩
        · obtain ⟨e, he, hke⟩ := ih h1 (by
            intro hc
            rcases List.mem_cons.mp hc with h2 | h2
            · exact heq h2
            · exact hk h2)
          exact ⟨e, List.mem_cons_of_mem _ he, hke⟩

/-! ## Helper lemmas: rank reassignment -/

theorem rerank_length (i : Nat) (xs : List EvidenceItem) :
    (rerank i xs).length = xs.length := by
  induction xs generalizing i with
  | nil => rfl
  | cons x xs ih => simp [rerank, ih]

theorem rerank_map_rank (i : Nat) (xs : List EvidenceItem) :
    (rerank i xs).map (fun e => e.rank) = List.range' (i + 1) xs.length := by
  induction xs generalizing i with
  | nil => rfl
  | cons x xs ih => simp [rerank, List.range'_succ, ih]

theorem rerank_map_key (i : Nat) (xs : List EvidenceItem) :
    (rerank i xs).map dedupKey = xs.map dedupKey := by
  induction xs generalizing i with
  | nil => rfl
  | cons x xs ih => simp [rerank, ih, dedupKey_set_rank]

theorem rerank_map_score (i : Nat) (xs : List EvidenceItem) :
    (rerank i xs).map (fun e => e.similarity_score)
      = xs.map (fun e => e.similarity_score) := by
  induction xs generalizing i with
  | nil => rfl
  | cons x xs ih => simp [rerank, ih]

theorem rerank_mem {i : Nat} {xs : List EvidenceItem} {e : EvidenceItem}
    (h : e ∈ rerank i xs) : ∃ d ∈ xs, eraseRank e = eraseRank d := by
  induction xs generalizing i with
  | nil => simp [rerank] at h
  | cons x xs ih =>
    rcases List.mem_cons.mp h with h1 | h1
    · exact ⟨x, List.mem_cons_self _ _, by rw [h1, eraseRank_set_rank]⟩
    · obtain ⟨d, hd, hde⟩ := ih h1
      exact ⟨d, List.mem_cons_of_mem _ hd, hde⟩

theorem rerank_exists_of_mem {xs : List EvidenceItem} {d : EvidenceItem} (i : Nat)
    (h : d ∈ xs) : ∃ e ∈ rerank i xs, eraseRank e = eraseRank d := by
  induction xs generalizing i with
  | nil => simp at h
  | cons x xs ih =>
    rcases List.mem_cons.mp h with h1 | h1
    · exact ⟨{ x with rank := i + 1 }, List.mem_cons_self _ _, by rw [h1, eraseRank_set_rank]⟩
    · obtain ⟨e, he, hed⟩ := ih (i + 1) h1
      exact ⟨e, List.mem_cons_of_mem _ he, hed⟩

theorem rerank_pairwise {xs : List EvidenceItem} (i : Nat)
    (h : List.Pairwise (fun a b => b.similarity_score ≤ a.similarity_score) xs) :
    List.Pairwise (fun a b => b.similarity_score ≤ a.similarity_score) (rerank i xs) := by
  induction xs generalizing i with
  | nil => simp [rerank]
  | cons x xs ih =>
    rw [List.pairwise_cons] at h
    obtain ⟨hx, hxs⟩ := h
    refine List.Pairwise.cons ?_ (ih (i + 1) hxs)
    intro e he
    obtain ⟨d, hd, hde⟩ := rerank_mem he
    have h1 := congrArg EvidenceItem.similarity_score hde
    have h2 : e.similarity_score = d.similarity_score := h1
    rw [h2]
    exact hx d hd

/-! ## Helper lemmas: tagging and the merge stage -/

theorem tagFrom_source_type {i : Nat} {ty : String} {rs : List SearchResult}
    {e : EvidenceItem} (h : e ∈ tagFrom i ty rs) : e.source_type = ty := by
  induction rs generalizing i with
  | nil => simp [tagFrom] at h
  | cons r rs ih =>
    rcases List.mem_cons.mp h with h1 | h1
    · rw [h1]
    · exact ih h1

/-- Every bundle item is (up to the reassigned rank) a first-seen
deduplicated input item. -/
theorem mergeSources_mem {l : List EvidenceItem} {e : EvidenceItem}
    (h : e ∈ mergeSources l) : ∃ d ∈ dedupe l [], eraseRank e = eraseRank d := by
  obtain ⟨d, hd, hde⟩ := rerank_mem h
  have hd2 : d ∈ sortDescBy (fun e => e.similarity_score) (dedupe l []) :=
    List.mem_of_mem_take hd
  exact ⟨d, (sortDescBy_perm _ _).mem_iff.mp hd2, hde⟩

theorem mergeSources_keys_nodup (l : List EvidenceItem) :
    ((mergeSources l).map dedupKey).Nodup := by
  unfold mergeSources
  rw [rerank_map_key, List.map_take]
  refine List.Nodup.sublist (List.take_sublist _ _) ?_
  have hperm := (sortDescBy_perm (fun e => e.similarity_score) (dedupe l [])).map dedupKey
  exact hperm.symm.nodup (dedupe_keys_nodup l [])

theorem eraseRank_score {e d : EvidenceItem} (h : eraseRank e = eraseRank d) :
    e.similarity_score = d.similarity_score := by
  have h1 := congrArg EvidenceItem.similarity_score h
  exact h1

theorem eraseRank_key {e d : EvidenceItem} (h : eraseRank e = eraseRank d) :
    dedupKey e = dedupKey d := by
  have h1 := congrArg dedupKey h
  exact h1

theorem eraseRank_source_type {e d : EvidenceItem} (h : eraseRank e = eraseRank d) :
    e.source_type = d.source_type := by
  have h1 := congrArg EvidenceItem.source_type h
  exact h1

/-! ## Helper lemmas: Counter -/

theorem dedupStr_mem {l seen : List String} {k : String} :
    k ∈ dedupStr l seen ↔ k ∈ l ∧ k ∉ seen := by
  induction l generalizing seen with
  | nil => simp [dedupStr]
  | cons x xs ih =>
    by_cases hx : x ∈ seen
    · simp only [dedupStr, if_pos hx, ih, List.mem_cons]
      constructor
      · rintro ⟨h1, h2⟩
        exact ⟨Or.inr h1, h2⟩
      · rintro ⟨h1 | h1, h2⟩
        · exact absurd (h1 ▸ hx) h2
        · exact ⟨h1, h2⟩
    · simp only [dedupStr, if_neg hx, List.mem_cons, ih]
      constructor
      · rintro (h1 | ⟨h1, h2⟩)
        · exact ⟨Or.inl h1, h1 ▸ hx⟩
        · exact ⟨Or.inr h1, fun hc => h2 (Or.inr hc)⟩
      · rintro ⟨h1 | h1, h2⟩
        · exact Or.inl h1
        · by_cases hkx : k = x
          · exact Or.inl hkx
          · exact Or.inr ⟨h1, by simp [hkx, h2]⟩

theorem lookup_map_self (f : String → Nat) (keys : List String) (k : String) :
    (keys.map (fun x => (x, f x))).lookup k
      = if k ∈ keys then some (f k) else none := by
  induction keys with
  | nil => rfl
  | cons x xs ih =>
    by_cases hkx : k = x
    · subst hkx
      simp [List.lookup]
    · simp [List.lookup, beq_eq_false_iff_ne.mpr hkx, ih, hkx]

/-- `Counter(l).get(k, 0)` equals the number of occurrences of `k` in `l`. -/
theorem counterOf_lookup (l : List String) (k : String) :
    ((counterOf l).lookup k).getD 0 = l.count k := by
  unfold counterOf
  rw [lookup_map_self]
  by_cases h : k ∈ dedupStr l []
  · simp [h]
  · have hnl : k ∉ l := by
      intro hk
      exact h (dedupStr_mem.mpr ⟨hk, by simp⟩)
    simp [h, List.count_eq_zero.mpr hnl]

/-! ## Claim theorems -/

set_option maxRecDepth 8000

/-- C5, counterexample: on the series `[10,10,10,10,100]` the code flags
nothing at all — the population variance is 1296, so the deviation of 100
from the mean 28 satisfies `(100-28)² = 4·1296` exactly, i.e. `|z| = 2`,
which does not exceed the `abs(z) > 2` threshold; in particular 100 is not
flagged as an anomaly with severity "high" as the claim states. -/
theorem C5_counterexample :
    detect_anomalies [10, 10, 10, 10, 100] = [] ∧
    popVar [10, 10, 10, 10, 100] = 1296 ∧
    ((100 : ℚ) - 28) ^ 2 = 4 * 1296 := by
  refine ⟨by with_unfolding_all rfl, by with_unfolding_all rfl, by norm_num⟩

/-- C5 (amended): `detect_anomalies [10,10,10,10,100]` flags nothing (the
z-score of 100 is exactly 2, not above the threshold); `[10,11,9,10]` flags
no anomalies; and every series with fewer than 3 values or zero variance
yields the empty list. -/
theorem C5_anomaly_rules :
    detect_anomalies [10, 10, 10, 10, 100] = [] ∧
    detect_anomalies [10, 11, 9, 10] = [] ∧
    (∀ metrics : List ℚ, metrics.length < 3 → detect_anomalies metrics = []) ∧
    (∀ metrics : List ℚ, popVar metrics = 0 → detect_anomalies metrics = []) := by
  refine ⟨by with_unfolding_all rfl, by with_unfolding_all rfl, ?_, ?_⟩
  · intro metrics h
    unfold detect_anomalies
    rw [if_pos h]
  · intro metrics h
    unfold detect_anomalies
    by_cases h3 : metrics.length < 3
    · rw [if_pos h3]
    · rw [if_neg h3]
      rw [List.filterMap_eq_nil_iff]
      intro p _
      rw [h]
      norm_num

/-- C5 witness: the short-series and zero-variance rules at concrete inputs. -/
theorem C5_anomaly_rules_witness :
    detect_anomalies [5, 7] = [] ∧ detect_anomalies [3, 3, 3, 3] = [] := by
  constructor
  · exact C5_anomaly_rules.2.2.1 [5, 7] (by norm_num)
  · exact C5_anomaly_rules.2.2.2 [3, 3, 3, 3] (by with_unfolding_all rfl)

/-- C8 (confirmed): the suggested-question generator always returns exactly 3
questions; with an empty context-source list they are the 3 fixed
"please provide data" prompts in order; otherwise the result is the first 3
of the bucket accumulation in fixed order — the chart bucket wins whenever
chart sources are present, then the comment bucket, then the insight bucket,
and the generic fallbacks fill in when no bucket applies. -/
theorem C8_suggested_questions (st : AgentState) :
    (generate_follow_up_questions st).length = 3 ∧
    (st.context_sources = [] → generate_follow_up_questions st = no_data_questions) ∧
    (st.context_sources ≠ [] →
      (st.context_sources.any (fun s => s.source_type == "chart") = true →
        generate_follow_up_questions st = chart_questions) ∧
      (st.context_sources.any (fun s => s.source_type == "chart") = false →
        st.context_sources.any (fun s => s.source_type == "comment") = true →
        generate_follow_up_questions st = comment_questions) ∧
      (st.context_sources.any (fun s => s.source_type == "chart") = false →
        st.context_sources.any (fun s => s.source_type == "comment") = false →
        st.insights ≠ [] → generate_follow_up_questions st = insight_questions) ∧
      (st.context_sources.any (fun s => s.source_type == "chart") = false →
        st.context_sources.any (fun s => s.source_type == "comment") = false →
        st.insights = [] → generate_follow_up_questions st = generic_questions)) := by
  by_cases he : st.context_sources.isEmpty
  · have he' : st.context_sources = [] := by
      cases hsc : st.context_sources with
      | nil => rfl
      | cons a l => rw [hsc] at he; simp [List.isEmpty] at he
    refine ⟨?_, fun _ => ?_, fun hne => absurd he' hne⟩
    · unfold generate_follow_up_questions
      rw [if_pos he]
      rfl
    · unfold generate_follow_up_questions
      rw [if_pos he]
      rfl
  · have he' : st.context_sources ≠ [] := by
      intro hc
      rw [hc] at he
      exact he rfl
    refine ⟨?_, fun hc => absurd hc he', fun _ => ⟨?_, ?_, ?_, ?_⟩⟩ <;>
      unfold generate_follow_up_questions <;> rw [if_neg he]
    · by_cases hch : st.context_sources.any (fun s => s.source_type == "chart") <;>
        by_cases hcm : st.context_sources.any (fun s => s.source_type == "comment") <;>
        by_cases hin : st.insights.isEmpty <;>
        simp only [hch, hcm, hin, if_pos, if_neg, Bool.false_eq_true, if_true, if_false] <;>
        rfl
    · intro hch
      by_cases hcm : st.context_sources.any (fun s => s.source_type == "comment") <;>
        by_cases hin : st.insights.isEmpty <;>
        simp only [hch, hcm, hin, Bool.false_eq_true, if_true, if_false] <;>
        rfl
    · intro hch hcm
      by_cases hin : st.insights.isEmpty <;>
        simp only [hch, hcm, hin, Bool.false_eq_true, if_true, if_false] <;>
        rfl
    · intro hch hcm hin
      have hin' : st.insights.isEmpty = false := by
        cases hi : st.insights with
        | nil => exact absurd hi hin
        | cons a l => rfl
      simp only [hch, hcm, hin', Bool.false_eq_true, if_true, if_false]
      rfl
    · intro hch hcm hin
      have hin' : st.insights.isEmpty = true := by
        rw [hin]; rfl
      simp only [hch, hcm, hin', Bool.false_eq_true, if_true, if_false]
      rfl

/-- C8 witness: a state with one chart source and no insights gets exactly
the chart bucket. -/
theorem C8_suggested_questions_witness :
    generate_follow_up_questions
      { initial_state "q" none none with
        context_sources := [⟨"x", ⟨none, none⟩, 1, 1, "chart"⟩] } = chart_questions ∧
    (generate_follow_up_questions (initial_state "q" none none)).length = 3 := by
  constructor
  · exact ((C8_suggested_questions _).2.2 (by decide)).1 (by decide)
  · exact (C8_suggested_questions (initial_state "q" none none)).1

/-! ## Branch lemmas for the pipeline runs -/

theorem run_sync_redirect_eq (o : Oracles) (ci cc : IndexStatus) (q : String)
    (ch cm : Option (List String))
    (h : containsSub (lowerStr o.classifier) "analytical" = false) :
    run_sync o ci cc q ch cm
      = (redirect_to_analytical (validate_query o.classifier (initial_state q ch cm)),
         [Stage.validate, Stage.redirect]) := by
  simp only [run_sync]
  rw [show (validate_query o.classifier (initial_state q ch cm)).is_analytical = false from h]
  simp

theorem run_streaming_redirect_eq (o : Oracles) (ci cc : IndexStatus) (q : String)
    (ch cm : Option (List String))
    (h : containsSub (lowerStr o.classifier) "analytical" = false) :
    run_streaming o ci cc q ch cm
      = (redirect_to_analytical (validate_query o.classifier (initial_state q ch cm)),
         [Stage.validate, Stage.redirect]) := by
  simp only [run_streaming]
  rw [show (validate_query o.classifier (initial_state q ch cm)).is_analytical = false from h]
  simp

theorem run_sync_analytic_eq (o : Oracles) (ci cc : IndexStatus) (q : String)
    (ch cm : Option (List String))
    (h : containsSub (lowerStr o.classifier) "analytical" = true) :
    run_sync o ci cc q ch cm
      = (generate_response (analyze_data o
          (extract_context ci cc (validate_query o.classifier (initial_state q ch cm)))),
         [Stage.validate, Stage.extract, Stage.analyze, Stage.respond]) := by
  simp only [run_sync]
  rw [show (validate_query o.classifier (initial_state q ch cm)).is_analytical = true from h]
  simp

theorem run_streaming_analytic_eq (o : Oracles) (ci cc : IndexStatus) (q : String)
    (ch cm : Option (List String))
    (h : containsSub (lowerStr o.classifier) "analytical" = true) :
    run_streaming o ci cc q ch cm
      = (generate_streaming_response o
          (extract_context ci cc (validate_query o.classifier (initial_state q ch cm))),
         [Stage.validate, Stage.extract, Stage.streamRespond]) := by
  simp only [run_streaming]
  rw [show (validate_query o.classifier (initial_state q ch cm)).is_analytical = true from h]
  simp

theorem generate_response_fields (st : AgentState) :
    (generate_response st).requires_clarification = (st.context_sources.length == 0) ∧
    (generate_response st).context_sources = st.context_sources := ⟨rfl, rfl⟩

theorem generate_streaming_response_fields (o : Oracles) (st : AgentState) :
    (generate_streaming_response o st).requires_clarification
      = ((st.context_sources.length == 0)
          || containsSub (lowerStr st.context) "no indexed data") ∧
    (generate_streaming_response o st).context_sources = st.context_sources ∧
    (generate_streaming_response o st).context = st.context := by
  unfold generate_streaming_response analyze_data
  dsimp only
  split_ifs <;> exact ⟨rfl, rfl, rfl⟩

theorem length_beq_zero_iff {α : Type} (l : List α) :
    ((l.length == 0) = true) ↔ l = [] := by
  rw [beq_iff_eq, List.length_eq_zero]

/-- C7 (confirmed): whenever the classifier output does not contain the
marker "analytical" (the query is classified non-analytical), neither the
synchronous nor the streaming run ever executes the retrieval stage, and the
resulting state's response and exactly-3 suggested questions are the fixed
redirect constants, for every query and any supplied charts or comments. -/
theorem C7_redirect_path (o : Oracles) (ci cc : IndexStatus) (q : String)
    (ch cm : Option (List String))
    (h : containsSub (lowerStr o.classifier) "analytical" = false) :
    Stage.extract ∉ (run_sync o ci cc q ch cm).2 ∧
    Stage.extract ∉ (run_streaming o ci cc q ch cm).2 ∧
    (run_sync o ci cc q ch cm).1.response = redirect_response ∧
    (run_streaming o ci cc q ch cm).1.response = redirect_response ∧
    (run_sync o ci cc q ch cm).1.suggested_questions = redirect_questions ∧
    (run_streaming o ci cc q ch cm).1.suggested_questions = redirect_questions ∧
    redirect_questions.length = 3 := by
  rw [run_sync_redirect_eq o ci cc q ch cm h, run_streaming_redirect_eq o ci cc q ch cm h]
  have hs : Stage.extract ∉ [Stage.validate, Stage.redirect] := by decide
  exact ⟨hs, hs, rfl, rfl, rfl, rfl, rfl⟩

/-- C7 witness: a concrete non-analytical classification at a concrete input. -/
theorem C7_redirect_path_witness :
    Stage.extract ∉
      (run_sync ⟨"non analytic chit chat", "", fun _ => [], fun _ => []⟩
        IndexStatus.missing IndexStatus.missing "hello" none none).2 ∧
    (run_sync ⟨"non analytic chit chat", "", fun _ => [], fun _ => []⟩
        IndexStatus.missing IndexStatus.missing "hello" none none).1.response
      = redirect_response := by
  have h := C7_redirect_path ⟨"non analytic chit chat", "", fun _ => [], fun _ => []⟩
    IndexStatus.missing IndexStatus.missing "hello" none none (by decide)
  exact ⟨h.1, h.2.2.1⟩

/-- C10 (confirmed): `validate_query` sets `is_analytical` exactly when the
classification completion contains the substring "analytical"
case-insensitively; the prescribed label "non-analytical" therefore also sets
it, and a completion equal to either prescribed label never routes the run
(synchronous or streaming) to the redirect branch. -/
theorem C10_classifier_marker :
    (∀ (r : String) (st : AgentState),
      (validate_query r st).is_analytical = true ↔ "analytical".data <:+: (lowerStr r).data) ∧
    (∀ st : AgentState, (validate_query "non-analytical" st).is_analytical = true) ∧
    (∀ (o : Oracles) (ci cc : IndexStatus) (q : String) (ch cm : Option (List String)),
      o.classifier = "analytical" ∨ o.classifier = "non-analytical" →
      Stage.redirect ∉ (run_sync o ci cc q ch cm).2 ∧
      Stage.redirect ∉ (run_streaming o ci cc q ch cm).2) := by
  refine ⟨?_, ?_, ?_⟩
  · intro r st
    exact containsSub_iff (lowerStr r) "analytical"
  · intro st
    show containsSub (lowerStr "non-analytical") "analytical" = true
    decide
  · intro o ci cc q ch cm h
    have hcl : containsSub (lowerStr o.classifier) "analytical" = true := by
      rcases h with h1 | h1 <;> rw [h1] <;> decide
    rw [run_sync_analytic_eq o ci cc q ch cm hcl, run_streaming_analytic_eq o ci cc q ch cm hcl]
    have h1 : Stage.redirect ∉ [Stage.validate, Stage.extract, Stage.analyze, Stage.respond] := by
      decide
    have h2 : Stage.redirect ∉ [Stage.validate, Stage.extract, Stage.streamRespond] := by
      decide
    exact ⟨h1, h2⟩

/-- C10 witness: the completion "non-analytical" routes a concrete run to the
analytical branch, never to redirect. -/
theorem C10_classifier_marker_witness :
    Stage.redirect ∉
      (run_sync ⟨"non-analytical", "", fun _ => [], fun _ => []⟩
        IndexStatus.missing IndexStatus.missing "hi" none none).2 :=
  (C10_classifier_marker.2.2 ⟨"non-analytical", "", fun _ => [], fun _ => []⟩
    IndexStatus.missing IndexStatus.missing "hi" none none (Or.inr rfl)).1

/-- C2, counterexample: in a streaming run whose single retrieved chart's
content contains the phrase "no indexed data", the final state has
`requires_clarification = true` while the context-source list is non-empty
(length 1), so the claimed "iff empty" equivalence fails on the streaming
path. -/
theorem C2_counterexample :
    ((run_streaming ⟨"analytical", "resp", fun _ => [], fun _ => []⟩
        (IndexStatus.ok [⟨"there is no indexed data here", ⟨none, none⟩, 1⟩])
        IndexStatus.missing "q" none none).1.requires_clarification = true) ∧
    ((run_streaming ⟨"analytical", "resp", fun _ => [], fun _ => []⟩
        (IndexStatus.ok [⟨"there is no indexed data here", ⟨none, none⟩, 1⟩])
        IndexStatus.missing "q" none none).1.context_sources.length = 1) := by
  refine ⟨by with_unfolding_all rfl, by with_unfolding_all rfl⟩

/-- C2 (amended): in every synchronous run (redirect branch included)
`requires_clarification` is true iff the final context-source list is empty;
in every streaming run it is true iff the list is empty OR the lowercased
context text contains the substring "no indexed data" (the source's extra
disjunct, analytics_agent.py line 610). -/
theorem C2_clarification (o : Oracles) (ci cc : IndexStatus) (q : String)
    (ch cm : Option (List String)) :
    ((run_sync o ci cc q ch cm).1.requires_clarification = true ↔
      (run_sync o ci cc q ch cm).1.context_sources = []) ∧
    ((run_streaming o ci cc q ch cm).1.requires_clarification = true ↔
      ((run_streaming o ci cc q ch cm).1.context_sources = [] ∨
        containsSub (lowerStr (run_streaming o ci cc q ch cm).1.context)
          "no indexed data" = true)) := by
  cases hcl : containsSub (lowerStr o.classifier) "analytical"
  · rw [run_sync_redirect_eq o ci cc q ch cm hcl, run_streaming_redirect_eq o ci cc q ch cm hcl]
    exact ⟨⟨fun _ => rfl, fun _ => rfl⟩, ⟨fun _ => Or.inl rfl, fun _ => rfl⟩⟩
  · rw [run_sync_analytic_eq o ci cc q ch cm hcl, run_streaming_analytic_eq o ci cc q ch cm hcl]
    constructor
    · rw [(generate_response_fields _).1, (generate_response_fields _).2]
      exact length_beq_zero_iff _
    · rw [(generate_streaming_response_fields o _).1,
        (generate_streaming_response_fields o _).2.1,
        (generate_streaming_response_fields o _).2.2]
      rw [Bool.or_eq_true]
      rw [length_beq_zero_iff]

/-! ## Lemmas about extract_context -/

theorem chartGatherItems_type {ci : IndexStatus} {e : EvidenceItem}
    (h : e ∈ chartGatherItems ci) : e.source_type = "chart" := by
  cases ci with
  | ok rs => exact tagFrom_source_type h
  | missing => simp [chartGatherItems] at h
  | corrupt => simp [chartGatherItems] at h

theorem commentGatherItems_type {cc : IndexStatus} {e : EvidenceItem}
    (h : e ∈ commentGatherItems cc) : e.source_type = "comment" := by
  cases cc with
  | ok rs => exact tagFrom_source_type h
  | missing => simp [commentGatherItems] at h
  | corrupt => simp [commentGatherItems] at h

/-- Every item of the final bundle is, up to its reassigned rank, one of the
gathered retrieval results. -/
theorem extract_context_sources_mem {ci cc : IndexStatus} {st : AgentState} {e : EvidenceItem}
    (h : e ∈ (extract_context ci cc st).context_sources) :
    ∃ d ∈ gatherSources ci cc, eraseRank e = eraseRank d := by
  unfold extract_context at h
  dsimp only at h
  split_ifs at h with hg
  · simp at h
  · obtain ⟨d, hd, hde⟩ := mergeSources_mem h
    exact ⟨d, dedupe_subset hd, hde⟩

/-- C3, counterexample: with a corrupt charts index and one raw chart
supplied, zero evidence items are gathered yet the context text is the
missing-index note followed by the sentinel — not the sentinel verbatim. -/
theorem C3_counterexample :
    (extract_context IndexStatus.corrupt IndexStatus.missing
        (initial_state "q" (some ["c1"]) none)).context_sources = [] ∧
    (extract_context IndexStatus.corrupt IndexStatus.missing
        (initial_state "q" (some ["c1"]) none)).context
      = "Note: Charts index not found. 1 charts provided but not indexed.\n" ++ sentinel ∧
    (extract_context IndexStatus.corrupt IndexStatus.missing
        (initial_state "q" (some ["c1"]) none)).context ≠ sentinel := by
  refine ⟨by with_unfolding_all rfl, by with_unfolding_all rfl, by with_unfolding_all decide⟩

/-- C3 (amended): when zero evidence items are gathered, the context text is
the emitted missing-index notes followed by the sentinel, joined by newlines;
it equals the sentinel verbatim exactly when no note was emitted (and the
source list is empty in any case). -/
theorem C3_sentinel (ci cc : IndexStatus) (st : AgentState)
    (h : gatherSources ci cc = []) :
    (extract_context ci cc st).context
      = joinNL ((chartGatherNotes ci st ++ commentGatherNotes cc st) ++ [sentinel]) ∧
    (chartGatherNotes ci st ++ commentGatherNotes cc st = [] →
      (extract_context ci cc st).context = sentinel) ∧
    (extract_context ci cc st).context_sources = [] := by
  have he : (gatherSources ci cc).isEmpty = true := by rw [h]; rfl
  unfold extract_context
  dsimp only
  rw [if_pos he]
  refine ⟨rfl, ?_, rfl⟩
  intro hn
  rw [hn]
  rfl

/-- C3 witness: both indices missing and no raw data — no note is emitted and
the context is exactly the sentinel. -/
theorem C3_sentinel_witness :
    (extract_context IndexStatus.missing IndexStatus.missing
      (initial_state "q" none none)).context = sentinel :=
  (C3_sentinel IndexStatus.missing IndexStatus.missing
    (initial_state "q" none none) rfl).2.1 rfl

/-- C9, counterexample: a missing charts index with raw charts supplied is
skipped silently — the run survives and the collection contributes nothing,
but no explanatory note is emitted anywhere in the context (the context is
exactly the sentinel, which does not mention a missing index). -/
theorem C9_counterexample :
    (extract_context IndexStatus.missing IndexStatus.missing
        (initial_state "q" (some ["c1"]) none)).context = sentinel ∧
    (extract_context IndexStatus.missing IndexStatus.missing
        (initial_state "q" (some ["c1"]) none)).context_sources = [] ∧
    containsSub (lowerStr sentinel) "index not found" = false := by
  refine ⟨by with_unfolding_all rfl, by with_unfolding_all rfl, by decide⟩

/-- C9 (amended): a missing or corrupt index never fails the run — that
collection contributes no items and the pipeline still executes every stage —
but the explanatory note is emitted only when the index is corrupt (load
raises after the existence check) and the corresponding raw data was
supplied; a merely missing index produces no note at all. -/
theorem C9_graceful (ci cc : IndexStatus) (st : AgentState) (o : Oracles) (q : String)
    (ch cm : Option (List String)) :
    ((ci = IndexStatus.missing ∨ ci = IndexStatus.corrupt) →
      ∀ e ∈ (extract_context ci cc st).context_sources, e.source_type = "comment") ∧
    ((cc = IndexStatus.missing ∨ cc = IndexStatus.corrupt) →
      ∀ e ∈ (extract_context ci cc st).context_sources, e.source_type = "chart") ∧
    (ci = IndexStatus.missing → chartGatherNotes ci st = []) ∧
    (ci = IndexStatus.corrupt → ∀ cs, st.charts = some cs → cs ≠ [] →
      chartGatherNotes ci st = [chartNote cs.length]) ∧
    (containsSub (lowerStr o.classifier) "analytical" = true →
      (run_sync o ci cc q ch cm).2
        = [Stage.validate, Stage.extract, Stage.analyze, Stage.respond]) := by
  refine ⟨?_, ?_, ?_, ?_, ?_⟩
  · intro hci e he
    obtain ⟨d, hd, hde⟩ := extract_context_sources_mem he
    rw [eraseRank_source_type hde]
    have hchart : chartGatherItems ci = [] := by
      rcases hci with h1 | h1 <;> rw [h1] <;> rfl
    rw [gatherSources, hchart, List.nil_append] at hd
    exact commentGatherItems_type hd
  · intro hcc e he
    obtain ⟨d, hd, hde⟩ := extract_context_sources_mem he
    rw [eraseRank_source_type hde]
    have hcom : commentGatherItems cc = [] := by
      rcases hcc with h1 | h1 <;> rw [h1] <;> rfl
    rw [gatherSources, hcom, List.append_nil] at hd
    exact chartGatherItems_type hd
  · intro h1
    rw [h1]
    rfl
  · intro h1 cs hcs hne
    have hisEmpty : cs.isEmpty = false := by
      cases cs with
      | nil => exact absurd rfl hne
      | cons a l => rfl
    rw [h1]
    simp [chartGatherNotes, hcs, hisEmpty]
  · intro hcl
    rw [run_sync_analytic_eq o ci cc q ch cm hcl]

/-- C9 witness: the note-free missing case and the full stage trace at
concrete inputs. -/
theorem C9_graceful_witness :
    chartGatherNotes IndexStatus.missing (initial_state "q" (some ["c1"]) none) = [] ∧
    (run_sync ⟨"analytical", "", fun _ => [], fun _ => []⟩ IndexStatus.missing
        IndexStatus.missing "q" (some ["c1"]) none).2
      = [Stage.validate, Stage.extract, Stage.analyze, Stage.respond] := by
  constructor
  · exact (C9_graceful IndexStatus.missing IndexStatus.missing
      (initial_state "q" (some ["c1"]) none) ⟨"analytical", "", fun _ => [], fun _ => []⟩
      "q" (some ["c1"]) none).2.2.1 rfl
  · exact (C9_graceful IndexStatus.missing IndexStatus.missing
      (initial_state "q" (some ["c1"]) none) ⟨"analytical", "", fun _ => [], fun _ => []⟩
      "q" (some ["c1"]) none).2.2.2.2 (by decide)

theorem extract_context_sources_merge (ci cc : IndexStatus) (st : AgentState) :
    (extract_context ci cc st).context_sources = mergeSources (gatherSources ci cc) := by
  unfold extract_context
  dsimp only
  split_ifs with hg
  · have hnil : gatherSources ci cc = [] := by
      cases hgs : gatherSources ci cc with
      | nil => rfl
      | cons a l => rw [hgs] at hg; simp [List.isEmpty] at hg
    rw [hnil]
    rfl
  · rfl

/-- C1, counterexample: two chart results with the identical deduplication
key `unknown:duplicate text` and scores 1 and 2, in retrieval order; the
bundle keeps exactly one item with that key, but it is the FIRST-SEEN one
(score 1), not the one with the higher similarity score (2). -/
theorem C1_counterexample :
    dedupKey ⟨"duplicate text", ⟨none, none⟩, 1, 1, "chart"⟩
      = dedupKey ⟨"duplicate text", ⟨none, none⟩, 2, 2, "chart"⟩ ∧
    (extract_context
        (IndexStatus.ok [⟨"duplicate text", ⟨none, none⟩, 1⟩, ⟨"duplicate text", ⟨none, none⟩, 2⟩])
        IndexStatus.missing (initial_state "q" none none)).context_sources.map
      (fun e => e.similarity_score) = [1] := by
  refine ⟨rfl, by with_unfolding_all rfl⟩

/-- C1 (amended): the bundle produced by `extract_context` holds at most one
item per deduplication key, and any kept item is (up to its reassigned rank)
the FIRST item in retrieval order bearing its key — not necessarily the
higher-scoring duplicate; when the deduplicated set fits the context bound,
every input key is represented by exactly one bundle item. -/
theorem C1_dedup_first_seen (ci cc : IndexStatus) (st : AgentState) :
    (((extract_context ci cc st).context_sources).map dedupKey).Nodup ∧
    (∀ e ∈ (extract_context ci cc st).context_sources,
      ∃ d, (gatherSources ci cc).find? (fun x => dedupKey x == dedupKey e) = some d ∧
        eraseRank d = eraseRank e) ∧
    ((dedupe (gatherSources ci cc) []).length ≤ max_context_sources →
      ∀ x ∈ gatherSources ci cc,
        ∃ e ∈ (extract_context ci cc st).context_sources, dedupKey e = dedupKey x) := by
  rw [extract_context_sources_merge]
  refine ⟨mergeSources_keys_nodup _, ?_, ?_⟩
  · intro e he
    obtain ⟨d, hd, hde⟩ := mergeSources_mem he
    have hk : dedupKey e = dedupKey d := eraseRank_key hde
    rw [hk]
    exact ⟨d, dedupe_find hd, hde.symm⟩
  · intro hlen x hx
    obtain ⟨d, hd, hkd⟩ := dedupe_covers hx (List.not_mem_nil _)
    have hds : d ∈ sortDescBy (fun e => e.similarity_score) (dedupe (gatherSources ci cc) []) :=
      (sortDescBy_perm _ _).mem_iff.mpr hd
    have hslen : (sortDescBy (fun e => e.similarity_score)
        (dedupe (gatherSources ci cc) [])).length ≤ max_context_sources := by
      rw [(sortDescBy_perm _ _).length_eq]
      exact hlen
    rw [← List.take_of_length_le hslen] at hds
    obtain ⟨e, he, hed⟩ := rerank_exists_of_mem 0 hds
    exact ⟨e, he, by rw [eraseRank_key hed, hkd]⟩

/-- C1 witness: a single chart result is kept and found as the first (only)
item with its key. -/
theorem C1_dedup_first_seen_witness :
    ∃ d, (gatherSources (IndexStatus.ok [⟨"abc", ⟨none, none⟩, 1⟩])
        IndexStatus.missing).find?
        (fun x => dedupKey x == dedupKey ⟨"abc", ⟨none, none⟩, 1, 1, "chart"⟩) = some d ∧
      eraseRank d = eraseRank ⟨"abc", ⟨none, none⟩, 1, 1, "chart"⟩ :=
  (C1_dedup_first_seen (IndexStatus.ok [⟨"abc", ⟨none, none⟩, 1⟩]) IndexStatus.missing
    (initial_state "q" none none)).2.1 ⟨"abc", ⟨none, none⟩, 1, 1, "chart"⟩
    (by with_unfolding_all decide)

/-- C4 (confirmed): when more than `max_context_sources` (5) deduplicated
items exist, the bundle has length exactly 5, its ranks are reassigned
1..5 in order, its scores are sorted descending, and every deduplicated item
left out scores no higher than every kept item. -/
theorem C4_bounding (ci cc : IndexStatus) (st : AgentState)
    (h : max_context_sources < (dedupe (gatherSources ci cc) []).length) :
    (extract_context ci cc st).context_sources.length = max_context_sources ∧
    ((extract_context ci cc st).context_sources.map (fun e => e.rank))
      = List.range' 1 max_context_sources ∧
    List.Pairwise (fun a b => b.similarity_score ≤ a.similarity_score)
      (extract_context ci cc st).context_sources ∧
    (∀ x ∈ dedupe (gatherSources ci cc) [],
      (∀ e ∈ (extract_context ci cc st).context_sources, eraseRank x ≠ eraseRank e) →
      ∀ e ∈ (extract_context ci cc st).context_sources,
        x.similarity_score ≤ e.similarity_score) := by
  rw [extract_context_sources_merge]
  have hslen : (sortDescBy (fun e => e.similarity_score)
      (dedupe (gatherSources ci cc) [])).length
      = (dedupe (gatherSources ci cc) []).length :=
    (sortDescBy_perm _ _).length_eq
  have htlen : ((sortDescBy (fun e => e.similarity_score)
      (dedupe (gatherSources ci cc) [])).take max_context_sources).length
      = max_context_sources := by
    rw [List.length_take, hslen]
    omega
  have hpair := sortDescBy_pairwise (fun e => e.similarity_score)
    (dedupe (gatherSources ci cc) [])
  refine ⟨?_, ?_, ?_, ?_⟩
  · rw [mergeSources, rerank_length, htlen]
  · rw [mergeSources, rerank_map_rank, htlen]
  · exact rerank_pairwise 0 (List.Pairwise.sublist (List.take_sublist _ _) hpair)
  · intro x hx hnotin e he
    have hxs : x ∈ sortDescBy (fun e => e.similarity_score)
        (dedupe (gatherSources ci cc) []) :=
      (sortDescBy_perm _ _).mem_iff.mpr hx
    rw [← List.take_append_drop max_context_sources (sortDescBy (fun e => e.similarity_score)
      (dedupe (gatherSources ci cc) []))] at hxs hpair
    have hsplit := List.pairwise_append.mp hpair
    rcases List.mem_append.mp hxs with hxt | hxd
    · obtain ⟨e', he', hex⟩ := rerank_exists_of_mem 0 hxt
      exact absurd hex.symm (hnotin e' he')
    · obtain ⟨de, hde, hede⟩ := rerank_mem he
      have h1 : e.similarity_score = de.similarity_score := eraseRank_score hede
      rw [h1]
      exact hsplit.2.2 de hde x hxd

/-- C4 witness: six distinct chart results; the bundle keeps exactly 5. -/
theorem C4_bounding_witness :
    (extract_context
      (IndexStatus.ok
        [ ⟨"a1", ⟨none, none⟩, 6⟩, ⟨"a2", ⟨none, none⟩, 5⟩, ⟨"a3", ⟨none, none⟩, 4⟩
        , ⟨"a4", ⟨none, none⟩, 3⟩, ⟨"a5", ⟨none, none⟩, 2⟩, ⟨"a6", ⟨none, none⟩, 1⟩ ])
      IndexStatus.missing (initial_state "q" none none)).context_sources.length
      = max_context_sources :=
  (C4_bounding _ IndexStatus.missing (initial_state "q" none none)
    (by with_unfolding_all decide)).1

/-! ## Lemmas for the sentiment-threshold insights -/

/-- On a non-empty batch, `positive_ratio` is the number of texts whose
individual sentiment label is exactly `"positive"`, divided by the batch
size. -/
theorem analyze_batch_share (pol subj : String → ℚ) (texts : List String)
    (h : texts ≠ []) :
    (analyze_batch pol subj texts).positive_share
      = ((texts.map (fun t => (analyze_sentiment pol subj t).sentiment)).count "positive" : ℚ)
        / texts.length := by
  unfold analyze_batch
  dsimp only
  have hne : (texts.map (analyze_sentiment pol subj)).isEmpty = false := by
    cases texts with
    | nil => exact absurd rfl h
    | cons a l => rfl
  rw [hne]
  simp only [Bool.false_eq_true, if_false, counterOf_lookup, List.map_map, List.length_map]
  rfl

theorem strStarts_append (p a x : String) (h : p.data.isPrefixOf a.data = true) :
    strStarts (a ++ x) p = true := by
  unfold strStarts
  rw [String.data_append_eq]
  exact isPrefixOf_append_left _ _ _ h

theorem strStarts_cons_ne (a b : Char) (as bs : List Char) (x : String)
    (h : (a == b) = false) :
    strStarts (String.mk (b :: bs) ++ x) (String.mk (a :: as)) = false := by
  unfold strStarts
  rw [String.data_append_eq]
  show ((a == b) && as.isPrefixOf (bs ++ x.data)) = false
  rw [h]
  rfl

/-- The structure of `_analyze_comment_sentiment` on a non-empty batch:
the overall statement, then the threshold statement (if any), then the
topics statement (if any). -/
theorem analyze_comment_sentiment_eq (pol subj : String → ℚ) (srcs : List EvidenceItem)
    (hne : srcs ≠ []) :
    analyze_comment_sentiment pol subj srcs
      = ("Overall user sentiment is " ++ underscoreToSpace
            (analyze_batch pol subj (srcs.map (fun s => s.content))).overall_sentiment)
        :: ((if (analyze_batch pol subj (srcs.map (fun s => s.content))).positive_share > 7/10
            then ["Strong positive feedback: "
              ++ formatRound0
                ((analyze_batch pol subj (srcs.map (fun s => s.content))).positive_share * 100)
              ++ "% of comments are positive"]
            else if (analyze_batch pol subj (srcs.map (fun s => s.content))).positive_share < 3/10
            then ["Significant negative feedback: "
              ++ formatRound0
                ((1 - (analyze_batch pol subj (srcs.map (fun s => s.content))).positive_share)
                  * 100)
              ++ "% of comments express concerns"]
            else [])
          ++ (if (identify_key_topics (srcs.map (fun s => s.content))).isEmpty then []
            else ["Key discussion topics: "
              ++ joinWith ", "
                (((identify_key_topics (srcs.map (fun s => s.content))).take 3).map
                  (fun t => t.topic))])) := by
  unfold analyze_comment_sentiment
  dsimp only
  have hcc : (srcs.map (fun s => s.content)).isEmpty = false := by
    cases srcs with
    | nil => exact absurd rfl hne
    | cons a l => rfl
  rw [hcc]
  simp only [Bool.false_eq_true, if_false, List.cons_append]

/-- C6 (confirmed): for a non-empty batch of comment-sourced items, when more
than 70% of the comments individually classify as "positive" the synthesized
insights contain a "Strong positive feedback" statement; when fewer than 30%
do, they contain a "Significant negative feedback" statement; and when
exactly half do, they contain neither. -/
theorem C6_sentiment_thresholds (pol subj : String → ℚ) (srcs : List EvidenceItem)
    (hne : srcs ≠ []) :
    (((srcs.map (fun s => (analyze_sentiment pol subj s.content).sentiment)).count
        "positive" : ℚ) / (srcs.length : ℚ) > 7/10 →
      (analyze_comment_sentiment pol subj srcs).any
        (fun s => strStarts s "Strong positive feedback") = true) ∧
    (((srcs.map (fun s => (analyze_sentiment pol subj s.content).sentiment)).count
        "positive" : ℚ) / (srcs.length : ℚ) < 3/10 →
      (analyze_comment_sentiment pol subj srcs).any
        (fun s => strStarts s "Significant negative feedback") = true) ∧
    (((srcs.map (fun s => (analyze_sentiment pol subj s.content).sentiment)).count
        "positive" : ℚ) / (srcs.length : ℚ) = 1/2 →
      (analyze_comment_sentiment pol subj srcs).all
        (fun s => !(strStarts s "Strong positive feedback")
          && !(strStarts s "Significant negative feedback")) = true) := by
  have hc : (srcs.map (fun s => s.content)) ≠ [] := by
    cases srcs with
    | nil => exact absurd rfl hne
    | cons a l => simp
  have hmaps : (srcs.map (fun s => s.content)).map
        (fun t => (analyze_sentiment pol subj t).sentiment)
      = srcs.map (fun s => (analyze_sentiment pol subj s.content).sentiment) := by
    rw [List.map_map]
    rfl
  have hshare : (analyze_batch pol subj (srcs.map (fun s => s.content))).positive_share
      = ((srcs.map (fun s => (analyze_sentiment pol subj s.content).sentiment)).count
          "positive" : ℚ) / (srcs.length : ℚ) := by
    rw [analyze_batch_share pol subj _ hc, hmaps, List.length_map]
  rw [analyze_comment_sentiment_eq pol subj srcs hne, hshare]
  refine ⟨?_, ?_, ?_⟩
  · intro h7
    rw [if_pos h7]
    refine List.any_eq_true.mpr ⟨_, List.mem_cons_of_mem _
      (List.mem_append_left _ (List.mem_cons_self _ _)), ?_⟩
    rw [show ("Strong positive feedback: "
          ++ formatRound0 (((srcs.map (fun s =>
              (analyze_sentiment pol subj s.content).sentiment)).count "positive" : ℚ)
            / (srcs.length : ℚ) * 100))
          ++ "% of comments are positive"
        = "Strong positive feedback: "
          ++ (formatRound0 (((srcs.map (fun s =>
              (analyze_sentiment pol subj s.content).sentiment)).count "positive" : ℚ)
            / (srcs.length : ℚ) * 100)
            ++ "% of comments are positive")
      from congrArg String.mk (List.append_assoc _ _ _)]
    exact strStarts_append _ _ _ (by decide)
  · intro h3
    have hn7 : ¬ (((srcs.map (fun s =>
        (analyze_sentiment pol subj s.content).sentiment)).count "positive" : ℚ)
          / (srcs.length : ℚ) > 7/10) := by
      intro hgt
      linarith
    rw [if_neg hn7, if_pos h3]
    refine List.any_eq_true.mpr ⟨_, List.mem_cons_of_mem _
      (List.mem_append_left _ (List.mem_cons_self _ _)), ?_⟩
    rw [show ("Significant negative feedback: "
          ++ formatRound0 ((1 - ((srcs.map (fun s =>
              (analyze_sentiment pol subj s.content).sentiment)).count "positive" : ℚ)
            / (srcs.length : ℚ)) * 100))
          ++ "% of comments express concerns"
        = "Significant negative feedback: "
          ++ (formatRound0 ((1 - ((srcs.map (fun s =>
              (analyze_sentiment pol subj s.content).sentiment)).count "positive" : ℚ)
            / (srcs.length : ℚ)) * 100)
            ++ "% of comments express concerns")
      from congrArg String.mk (List.append_assoc _ _ _)]
    exact strStarts_append _ _ _ (by decide)
  · intro h5
    have hn7 : ¬ (((srcs.map (fun s =>
        (analyze_sentiment pol subj s.content).sentiment)).count "positive" : ℚ)
          / (srcs.length : ℚ) > 7/10) := by
      rw [h5]
      norm_num
    have hn3 : ¬ (((srcs.map (fun s =>
        (analyze_sentiment pol subj s.content).sentiment)).count "positive" : ℚ)
          / (srcs.length : ℚ) < 3/10) := by
      rw [h5]
      norm_num
    rw [if_neg hn7, if_neg hn3, List.nil_append]
    have hOverall : ∀ y : String,
        (!(strStarts ("Overall user sentiment is " ++ y) "Strong positive feedback")
          && !(strStarts ("Overall user sentiment is " ++ y)
            "Significant negative feedback")) = true := by
      intro y
      cases y with
      | mk d => rfl
    have hKey : ∀ y : String,
        (!(strStarts ("Key discussion topics: " ++ y) "Strong positive feedback")
          && !(strStarts ("Key discussion topics: " ++ y)
            "Significant negative feedback")) = true := by
      intro y
      cases y with
      | mk d => rfl
    by_cases ht : (identify_key_topics (srcs.map (fun s => s.content))).isEmpty
    · rw [if_pos ht]
      refine List.all_eq_true.mpr ?_
      intro s hs
      rw [List.mem_singleton.mp hs]
      exact hOverall _
    · rw [if_neg ht]
      refine List.all_eq_true.mpr ?_
      intro s hs
      rcases List.mem_cons.mp hs with h1 | h1
      · rw [h1]
        exact hOverall _
      · rw [List.mem_singleton.mp h1]
        exact hKey _

/-- C6 witness: one comment with TextBlob polarity 0.2 classifies "positive",
the batch share is 1 > 0.7, and the strong-positive insight is emitted. -/
theorem C6_sentiment_thresholds_witness :
    (analyze_comment_sentiment (fun _ => 1/5) (fun _ => 0)
      [⟨"nice item", ⟨some "c0", none⟩, 1, 1, "comment"⟩]).any
      (fun s => strStarts s "Strong positive feedback") = true :=
  (C6_sentiment_thresholds (fun _ => 1/5) (fun _ => 0)
    [⟨"nice item", ⟨some "c0", none⟩, 1, 1, "comment"⟩] (by decide)).1
    (by with_unfolding_all decide)

/-- C2 witness: the synchronous iff applied at a concrete run with no indexed
data. -/
theorem C2_clarification_witness :
    (run_sync ⟨"analytical", "", fun _ => [], fun _ => []⟩ IndexStatus.missing
      IndexStatus.missing "q" none none).1.requires_clarification = true :=
  (C2_clarification ⟨"analytical", "", fun _ => [], fun _ => []⟩ IndexStatus.missing
    IndexStatus.missing "q" none none).1.mpr (by with_unfolding_all rfl)
